import Mathlib

/-!
Verification of the Kafka/Avro handler pipeline (azure-kafka-avro-handler).

Shallow embedding of:
  - `process` in KafkaAvroHandler/__init__.py (the correlation transform),
  - the Confluent wire-envelope strip and `deserialize_message` in
    avro_handler.py,
  - the subject-resolution lambdas, `produce_message`, `flush`, `close`
    and the context-manager exit in avro_producer.py.

Python dictionaries of JSON-like values are modelled as association lists
over an inductive value type; `uuid.uuid4()` and `time.time()` draws are
supplied explicitly through an environment record, one field per call
site; a Python exception escaping a function is modelled as `Except.error`.
-/

/-- Value universe of the Avro-decoded records flowing through the handler:
strings, integers, null, and nested mappings (the shapes the pipeline's
dictionaries actually hold). -/
inductive JVal where
  | str (s : String)
  | int (n : Int)
  | null
  | obj (fields : List (String × JVal))
deriving Repr

/-- A Python dict as an association list (keys are unique in practice;
lookup takes the first match, as dict lookup would). -/
abbrev PyDict := List (String × JVal)

/-- Lookup of a key in a dict: `d[k]` as an `Option`. -/
def dget : PyDict → String → Option JVal
  | [], _ => none
  | (k2, v) :: rest, k => if k = k2 then some v else dget rest k

/-- Python `d.get(k, default)`. -/
def pyGet (d : PyDict) (k : String) (default : JVal) : JVal :=
  (dget d k).getD default

mutual
/-- Embedding of `json.dumps` on the modelled value universe (string
escaping elided: no claim observes the rendered text beyond nullness). -/
def jsonDumps : JVal → String
  | .str s => "\"" ++ s ++ "\""
  | .int n => toString n
  | .null => "null"
  | .obj fs => "\x7b" ++ jsonDumpsFields fs ++ "\x7d"

/-- Field list part of `jsonDumps`. -/
def jsonDumpsFields : List (String × JVal) → String
  | [] => ""
  | [(k, v)] => "\"" ++ k ++ "\": " ++ jsonDumps v
  | (k, v) :: rest =>
      "\"" ++ k ++ "\": " ++ jsonDumps v ++ ", " ++ jsonDumpsFields rest
end

mutual
/-- Embedding of Python `str()` on the modelled value universe
(`str` is the identity on strings, `None` prints as "None"; the rendering
of nested dicts is json-like here, no claim observes it). -/
def pyStr : JVal → String
  | .str s => s
  | .int n => toString n
  | .null => "None"
  | .obj fs => "\x7b" ++ pyStrFields fs ++ "\x7d"

/-- Field list part of `pyStr`. -/
def pyStrFields : List (String × JVal) → String
  | [] => ""
  | [(k, v)] => k ++ ": " ++ pyStr v
  | (k, v) :: rest => k ++ ": " ++ pyStr v ++ ", " ++ pyStrFields rest
end

/-- Python exceptions that the embedded code can raise. -/
inductive PyErr where
  | attributeError (msg : String)
  | valueError (msg : String)
  | bufferError (msg : String)
deriving Repr

/-- One environment per `process` invocation: the value each
`uuid.uuid4()` / `time.time()` call site would return, one field per call
site in KafkaAvroHandler/__init__.py. -/
structure Env where
  /-- uuid drawn at line 79 (`correlationId` default). -/
  uuidCorr : String
  /-- uuid drawn at line 105 (success `id` default). -/
  uuidId : String
  /-- uuid drawn at line 117 (success `executionId`). -/
  uuidExec : String
  /-- uuid drawn at line 138 (error `id` default). -/
  uuidErrId : String
  /-- uuid drawn at line 150 (error `executionId`). -/
  uuidErrExec : String
  /-- `int(time.time() * 1000)` at line 88 (`processedAt`). -/
  tProcessedAt : Nat
  /-- `int((time.time() - start_time) * 1000)` at line 93. -/
  tProcTime : Nat
  /-- `int(time.time() * 1000)` at line 107 (success `timestamp`). -/
  tTimestamp : Nat
  /-- `int(time.time() * 1000)` at line 140 (error `timestamp`). -/
  tErrTimestamp : Nat

/-- Lines 86-91: the processed-data payload built inside the try block. -/
def processedData (correlationId : JVal) (value : PyDict) (env : Env) :
    PyDict :=
  [("originalId", correlationId),
   ("processedAt", .int env.tProcessedAt),
   ("transformedData", .str (pyStr (pyGet value "data" (.str ""))).toUpper),
   ("source", pyGet value "source" (.str "unknown"))]

/-- Lines 96-101: the success response key. -/
def successKey (correlationId partitionKey : JVal) : PyDict :=
  [("correlationId", correlationId),
   ("partitionKey", partitionKey),
   ("responseType", .str "PROCESSING_RESULT"),
   ("functionName", .str "KafkaAvroHandler")]

/-- Lines 104-119: the success response value. -/
def successValue (correlationId : JVal) (value : PyDict) (env : Env) :
    PyDict :=
  [("id", pyGet value "id" (.str env.uuidId)),
   ("correlationId", correlationId),
   ("timestamp", .int env.tTimestamp),
   ("status", .str "SUCCESS"),
   ("result", .obj
     [("processedData", .str (jsonDumps (.obj
         (processedData correlationId value env)))),
      ("errorMessage", .null),
      ("errorCode", .null),
      ("processingTimeMs", .int env.tProcTime),
      ("retryCount", .int 0)]),
   ("functionName", .str "KafkaAvroHandler"),
   ("executionId", .str env.uuidExec),
   ("version", .str "1.0")]

/-- Lines 130-135: the error response key. -/
def errorKey (correlationId partitionKey : JVal) : PyDict :=
  [("correlationId", correlationId),
   ("partitionKey", partitionKey),
   ("responseType", .str "ERROR_RESPONSE"),
   ("functionName", .str "KafkaAvroHandler")]

/-- Lines 137-152: the error response value, `msg` being `str(e)`. -/
def errorValue (correlationId : JVal) (value : PyDict) (msg : String)
    (env : Env) : PyDict :=
  [("id", pyGet value "id" (.str env.uuidErrId)),
   ("correlationId", correlationId),
   ("timestamp", .int env.tErrTimestamp),
   ("status", .str "ERROR"),
   ("result", .obj
     [("processedData", .null),
      ("errorMessage", .str msg),
      ("errorCode", .str "PROCESSING_ERROR"),
      ("processingTimeMs", .int 0),
      ("retryCount", .int 0)]),
   ("functionName", .str "KafkaAvroHandler"),
   ("executionId", .str env.uuidErrExec),
   ("version", .str "1.0")]

/-- Embedding of `process` (KafkaAvroHandler/__init__.py, lines 65-154).
The key and value halves arrive as `Option PyDict` because
`deserialize_message` yields `None` for a half that failed to decode.
The except clause at line 126 catches every exception of the try body;
the embedding makes that set explicit: `exn?` carries the message of an
exception the body raises beyond the structural ones, `none` when the
body completes. Control flow mirrored from the source:
  - a `None` key raises AttributeError at line 79 (`key.get`), before
    the try block;
  - a `None` value raises AttributeError at line 89 (`value.get`) inside
    the try, and the handler then raises AttributeError itself at line
    138 (`value.get`), so the exception still escapes;
  - with dict halves, the body either completes (lines 86-124) or, when
    an exception `exn?` occurs, the handler returns the error response
    (lines 130-154). -/
def process (key? value? : Option PyDict) (exn? : Option String)
    (env : Env) : Except PyErr (PyDict × PyDict) :=
  match key? with
  | none => .error (.attributeError "NoneType object has no attribute get")
  | some key =>
    let correlationId := pyGet key "correlationId" (.str env.uuidCorr)
    let partitionKey := pyGet key "partitionKey" (.str "default")
    match value? with
    | none => .error (.attributeError "NoneType object has no attribute get")
    | some value =>
      match exn? with
      | none => .ok (successKey correlationId partitionKey,
                     successValue correlationId value env)
      | some msg => .ok (errorKey correlationId partitionKey,
                         errorValue correlationId value msg env)

/-- Field lookup inside the nested `result` block of a response value. -/
def resultField (rv : PyDict) (k : String) : Option JVal :=
  match dget rv "result" with
  | some (.obj r) => dget r k
  | _ => none

/-! Embedding of avro_handler.py: the Confluent wire-envelope strip and
`deserialize_message`. Raw byte buffers are lists of byte values; the
Avro binary decode itself (`avro.io.DatumReader.read`, an external
library call parameterised by the loaded schema) is a parameter
`dec : Bytes → Except String PyDict` of the embedding, so every theorem
holds for every decoder behaviour. -/

/-- A raw byte buffer. -/
abbrev Bytes := List Nat

/-- Embedding of `int.from_bytes(bs, byteorder='big')`. -/
def intFromBytesBE (bs : Bytes) : Nat :=
  bs.foldl (fun acc b => acc * 256 + b) 0

/-- Embedding of the Confluent wire-format classification, lines 100-112
of avro_handler.py: `len(raw) >= 5 and raw[0] == 0` (short-circuit, so an
empty buffer never indexes) selects header stripping; otherwise the
buffer passes through unchanged. -/
def stripConfluent (raw : Bytes) : Bytes × Option Nat :=
  if 5 ≤ raw.length ∧ raw.head? = some 0 then
    (raw.drop 5, some (intFromBytesBE ((raw.drop 1).take 4)))
  else
    (raw, none)

/-- Embedding of `_deserialize_with_schema` (lines 72-128): a missing
schema raises ValueError; otherwise the buffer is classified/stripped and
handed to the Avro binary decode, whose failure is re-raised. -/
def deserializeWithSchema (dec : Bytes → Except String PyDict)
    (schemaLoaded : Bool) (raw : Bytes) : Except String PyDict :=
  if schemaLoaded = false then
    .error "schema not loaded"
  else
    dec (stripConfluent raw).1

/-- Embedding of one half of `deserialize_message` (lines 145-162): the
half starts as `None`; Python truthiness of `if raw_key:` means a decode
is attempted only when the buffer is present AND non-empty; any exception
of the attempt is caught and logged, leaving the half `None`. -/
def deserializeHalf (dec : Bytes → Except String PyDict)
    (schemaLoaded : Bool) (raw? : Option Bytes) : Option PyDict :=
  match raw? with
  | none => none
  | some raw =>
    if raw = [] then none
    else (deserializeWithSchema dec schemaLoaded raw).toOption

/-- Embedding of `deserialize_message` (lines 130-164), written with the
source's sequential structure: first the key block, then the value
block. -/
def deserializeMessage (decK decV : Bytes → Except String PyDict)
    (keyLoaded valueLoaded : Bool) (rawKey? rawValue? : Option Bytes) :
    Option PyDict × Option PyDict :=
  let keyData := deserializeHalf decK keyLoaded rawKey?
  let valueData := deserializeHalf decV valueLoaded rawValue?
  (keyData, valueData)

/-! Embedding of avro_producer.py: subject resolution (the
`subject.name.strategy` lambdas of lines 89-116), `produce_message`,
`flush`, `close` and the context-manager exit. The confluent-kafka
`SerializingProducer` is external transport; it is modelled at its
boundary as a pending-message queue whose `flush` drains a
delivery-determined number of messages. -/

/-- Role of a serializer: key or value. -/
inductive SubjectRole where
  | key
  | value

/-- Default registry subject for a topic and role. -/
def defaultSubject (topic : String) : SubjectRole → String
  | .key => topic ++ "-key"
  | .value => topic ++ "-value"

/-- Python `a or b` on an optional string: `None` and the empty string
are falsy. -/
def pyOrStr (a : Option String) (b : String) : String :=
  match a with
  | none => b
  | some s => if s = "" then b else s

/-- Embedding of the `subject.name.strategy` lambdas of
avro_producer.py lines 94-99 and 109-115:
`custom_subject or f"topic-role"`. -/
def resolveSubject (topic : String) (override : Option String)
    (role : SubjectRole) : String :=
  pyOrStr override (defaultSubject topic role)

/-- Boundary model of the external `SerializingProducer`: its pending
message queue. -/
structure KafkaLib where
  pending : Nat

/-- Transport flush at the boundary: within the timeout the transport
acknowledges `delivered` messages (an oracle of the model); the library
returns the count still pending. -/
def libFlush (h : KafkaLib) (delivered : Nat) : Nat × KafkaLib :=
  (h.pending - delivered, ⟨h.pending - delivered⟩)

/-- State of an `AvroMessageProducer`: `handle` is `self._producer`,
which `close` sets to `None`. -/
structure ProducerState where
  handle : Option KafkaLib

/-- Embedding of `produce_message` (lines 151-189): calling
`self._producer.produce` on a `None` producer raises AttributeError,
which the except clause logs and re-raises; otherwise the message is
enqueued and `poll(0)` drains callbacks. -/
def produceMessage (s : ProducerState) (_keyData _valueData : PyDict) :
    Except PyErr ProducerState :=
  match s.handle with
  | none => .error (.attributeError "NoneType object has no attribute produce")
  | some h => .ok ⟨some ⟨h.pending + 1⟩⟩

/-- Embedding of `flush` (lines 191-201): delegates to the library
producer; on a `None` producer the attribute access raises. -/
def flushProducer (s : ProducerState) (delivered : Nat) :
    Except PyErr (Nat × ProducerState) :=
  match s.handle with
  | none => .error (.attributeError "NoneType object has no attribute flush")
  | some h =>
    let r := libFlush h delivered
    .ok (r.1, ⟨some r.2⟩)

/-- Embedding of `close` (lines 203-212). The guard `if self._producer:`
is Python truthiness: `None` is falsy, and a live `SerializingProducer`
(a `confluent_kafka.Producer`, which defines `__len__` — the number of
messages awaiting delivery — and no `__bool__`) is falsy exactly when
its queue length is zero. So close is a no-op not only on an
already-cleared producer but also on an open producer with an empty
queue; only with messages pending does the body run: flush (a warning is
logged when messages remain) and clear the producer reference. -/
def closeProducer (s : ProducerState) (delivered : Nat) :
    Except PyErr ProducerState :=
  match s.handle with
  | none => .ok s
  | some h =>
    if h.pending = 0 then .ok s
    else
      let _remaining := (libFlush h delivered).1
      .ok ⟨none⟩

/-- Embedding of `__exit__` (lines 218-220): the context-manager exit
just calls `close`. -/
def exitProducer (s : ProducerState) (delivered : Nat) :
    Except PyErr ProducerState :=
  closeProducer s delivered

/-- Well-formedness of a response envelope: both halves carry the
identifier/constant fields `process` always writes, and the pair is
differentiated only by status/responseType (the two move together). -/
def wellFormedResponse (rk rv : PyDict) : Prop :=
  (dget rk "correlationId").isSome ∧
  (dget rk "partitionKey").isSome ∧
  dget rk "functionName" = some (.str "KafkaAvroHandler") ∧
  (dget rv "id").isSome ∧
  (dget rv "correlationId").isSome ∧
  (∃ t, dget rv "timestamp" = some (.int t)) ∧
  (∃ r, dget rv "result" = some (.obj r)) ∧
  dget rv "functionName" = some (.str "KafkaAvroHandler") ∧
  (∃ e, dget rv "executionId" = some (.str e)) ∧
  dget rv "version" = some (.str "1.0") ∧
  ((dget rk "responseType" = some (.str "PROCESSING_RESULT") ∧
    dget rv "status" = some (.str "SUCCESS")) ∨
   (dget rk "responseType" = some (.str "ERROR_RESPONSE") ∧
    dget rv "status" = some (.str "ERROR")))

/-- Non-nullness of a looked-up field: present and not `null`. -/
def nonNullField (o : Option JVal) : Prop :=
  ∃ v, o = some v ∧ v ≠ JVal.null

/-- Sample per-invocation environment. -/
def envEx : Env :=
  ⟨"u-corr", "u-id", "u-exec", "u-errid", "u-errexec", 11, 2, 13, 14⟩

/-- Second sample environment, with a different fresh-uuid supply. -/
def envEx2 : Env :=
  ⟨"w-corr", "w-id", "w-exec", "w-errid", "w-errexec", 21, 3, 23, 24⟩

/-- Sample inbound key carrying a correlation identifier. -/
def keyAbc : PyDict :=
  [("correlationId", JVal.str "abc"), ("partitionKey", JVal.str "p1")]

/-- Sample inbound key lacking a correlation identifier. -/
def keyNoCorr : PyDict := [("partitionKey", JVal.str "p1")]

/-- Sample inbound value. -/
def valEx : PyDict :=
  [("id", JVal.str "m1"), ("data", JVal.str "hi"),
   ("source", JVal.str "sensorA")]

/-- A decoder that succeeds on every buffer (in particular the empty
one), as the binary decode of an empty record schema would. -/
def decEmptyOk : Bytes → Except String PyDict :=
  fun _ => Except.ok []

/-- A decoder that fails on every buffer. -/
def decFailEx : Bytes → Except String PyDict :=
  fun _ => Except.error "decode failure"

/-- Helper: every successful return of `process` on dict halves is either
the success pair or the error pair, both built from the same correlation
identifier and partition key. -/
theorem process_ok_shape (key value : PyDict) (exn? : Option String)
    (env : Env) (rk rv : PyDict)
    (h : process (some key) (some value) exn? env = .ok (rk, rv)) :
    (exn? = none ∧
      rk = successKey (pyGet key "correlationId" (.str env.uuidCorr))
             (pyGet key "partitionKey" (.str "default")) ∧
      rv = successValue (pyGet key "correlationId" (.str env.uuidCorr))
             value env) ∨
    (∃ msg, exn? = some msg ∧
      rk = errorKey (pyGet key "correlationId" (.str env.uuidCorr))
             (pyGet key "partitionKey" (.str "default")) ∧
      rv = errorValue (pyGet key "correlationId" (.str env.uuidCorr))
             value msg env) := by
  cases exn? with
  | none =>
    left
    simp only [process, Except.ok.injEq, Prod.mk.injEq] at h
    exact ⟨rfl, h.1.symm, h.2.symm⟩
  | some msg =>
    right
    refine ⟨msg, rfl, ?_, ?_⟩ <;>
      simp only [process, Except.ok.injEq, Prod.mk.injEq] at h
    · exact h.1.symm
    · exact h.2.symm

/-- C1 (amended): when both decoded halves are dictionaries, the
correlation transform never raises: for every exception behaviour of the
try body it returns a well-formed (response key, response value) pair,
differentiated only by status/responseType. (As stated over None halves
the claim fails; see the counterexample.) -/
theorem process_never_raises_on_dicts (key value : PyDict)
    (exn? : Option String) (env : Env) :
    ∃ rk rv, process (some key) (some value) exn? env = .ok (rk, rv) ∧
      wellFormedResponse rk rv := by
  cases exn? with
  | none =>
    refine ⟨_, _, rfl, ?_⟩
    simp [wellFormedResponse, successKey, successValue, dget]
  | some msg =>
    refine ⟨_, _, rfl, ?_⟩
    simp [wellFormedResponse, errorKey, errorValue, dget]

/-- C1 (counterexample): a None key half — exactly what a decode failure
produces — makes `process` raise (AttributeError at `key.get`, line 79),
so the transform does not return a response for every inbound pair. -/
theorem process_raises_on_none_key :
    process none (some valEx) none envEx =
      .error (.attributeError "NoneType object has no attribute get") := rfl

/-- C2: the wire-envelope strip yields payload `b[5:]` and the big-endian
uint32 of `b[1:5]` whenever `len(b) >= 5` and `b[0] == 0`, and otherwise
yields the buffer unchanged with no schema identifier; the classification
is a total function, so it raises no error. -/
theorem stripConfluent_spec (b : Bytes) :
    (5 ≤ b.length → b.head? = some 0 →
      stripConfluent b =
        (b.drop 5,
         some (b.getD 1 0 * 2 ^ 24 + b.getD 2 0 * 2 ^ 16 +
               b.getD 3 0 * 2 ^ 8 + b.getD 4 0))) ∧
    (b.length < 5 ∨ b.head? ≠ some 0 →
      stripConfluent b = (b, none)) := by
  constructor
  · intro h5 h0
    match b, h5 with
    | b0 :: b1 :: b2 :: b3 :: b4 :: rest, _ =>
      simp only [List.head?, Option.some.injEq] at h0
      subst h0
      simp [stripConfluent, intFromBytesBE, List.getD]
      ring
  · intro h
    have hn : ¬ (5 ≤ b.length ∧ b.head? = some 0) := by
      rintro ⟨h1, h2⟩
      rcases h with h | h
      · omega
      · exact h h2
    simp [stripConfluent, hn]

/-- C2 (witness): concrete instances of both branches: a framed buffer
with schema id 258, and an unframed short buffer. -/
theorem stripConfluent_spec_witness :
    stripConfluent [0, 0, 0, 1, 2, 9] =
      ([0, 0, 0, 1, 2, 9].drop 5,
       some ([0, 0, 0, 1, 2, 9].getD 1 0 * 2 ^ 24 +
             [0, 0, 0, 1, 2, 9].getD 2 0 * 2 ^ 16 +
             [0, 0, 0, 1, 2, 9].getD 3 0 * 2 ^ 8 +
             [0, 0, 0, 1, 2, 9].getD 4 0)) ∧
    stripConfluent [7, 1] = ([7, 1], none) :=
  ⟨(stripConfluent_spec [0, 0, 0, 1, 2, 9]).1 (by decide) (by decide),
   (stripConfluent_spec [7, 1]).2 (by decide)⟩

/-- Helper: both halves of any successful `process` return carry the
correlation identifier computed from the inbound key (echoed when
present, the fresh draw when absent). -/
theorem process_ok_correlation (key value : PyDict) (exn? : Option String)
    (env : Env) (rk rv : PyDict)
    (h : process (some key) (some value) exn? env = .ok (rk, rv)) :
    dget rk "correlationId" =
      some (pyGet key "correlationId" (.str env.uuidCorr)) ∧
    dget rv "correlationId" =
      some (pyGet key "correlationId" (.str env.uuidCorr)) := by
  rcases process_ok_shape key value exn? env rk rv h with
      ⟨_, hrk, hrv⟩ | ⟨msg, _, hrk, hrv⟩ <;>
    subst hrk <;> subst hrv <;>
    simp [successKey, successValue, errorKey, errorValue, dget]

/-- C3: the two halves of `deserialize_message` are independent: the key
result does not depend on the value input or decoder (and symmetrically),
and a decode failure on a half is reported as `None` for that half
rather than raised. -/
theorem deserializeMessage_independent
    (decK decV decK2 decV2 : Bytes → Except String PyDict)
    (kL vL : Bool) (rawKey? rawValue? rawKey2? rawValue2? : Option Bytes) :
    ((deserializeMessage decK decV kL vL rawKey? rawValue?).1 =
      (deserializeMessage decK decV2 kL vL rawKey? rawValue2?).1) ∧
    ((deserializeMessage decK decV kL vL rawKey? rawValue?).2 =
      (deserializeMessage decK2 decV kL vL rawKey2? rawValue?).2) ∧
    (∀ raw e, deserializeWithSchema decK kL raw = .error e →
      (deserializeMessage decK decV kL vL (some raw) rawValue?).1 = none) ∧
    (∀ raw e, deserializeWithSchema decV vL raw = .error e →
      (deserializeMessage decK decV kL vL rawKey? (some raw)).2 = none) := by
  refine ⟨rfl, rfl, ?_, ?_⟩
  · intro raw e he
    by_cases hr : raw = []
    · subst hr
      simp [deserializeMessage, deserializeHalf]
    · simp [deserializeMessage, deserializeHalf, hr, he, Except.toOption]
  · intro raw e he
    by_cases hr : raw = []
    · subst hr
      simp [deserializeMessage, deserializeHalf]
    · simp [deserializeMessage, deserializeHalf, hr, he, Except.toOption]

/-- C3 (witness): a failing key decode on a non-empty buffer is reported
as `None` for the key half. -/
theorem deserializeMessage_independent_witness :
    (deserializeMessage decFailEx decEmptyOk true true (some [1]) none).1 =
      none :=
  (deserializeMessage_independent decFailEx decEmptyOk decFailEx decEmptyOk
      true true (some [1]) none (some [1]) none).2.2.1 [1] "decode failure"
    rfl

/-- C4: an inbound key lacking `correlationId` makes the response key
carry the freshly drawn identifier (non-empty and distinct across calls
whenever the uuid supply is, which `uuid.uuid4` guarantees); an inbound
key containing `correlationId = X` makes both response halves carry
exactly `X`. -/
theorem process_correlation (key value : PyDict) (exn? : Option String)
    (env : Env) (rk rv : PyDict)
    (h : process (some key) (some value) exn? env = .ok (rk, rv)) :
    (dget key "correlationId" = none →
       dget rk "correlationId" = some (.str env.uuidCorr)) ∧
    (dget key "correlationId" = none → env.uuidCorr ≠ "" →
       dget rk "correlationId" ≠ some (.str "")) ∧
    (∀ x, dget key "correlationId" = some x →
       dget rk "correlationId" = some x ∧ dget rv "correlationId" = some x) ∧
    (∀ key2 value2 exn2? env2 rk2 rv2,
       process (some key2) (some value2) exn2? env2 = .ok (rk2, rv2) →
       dget key "correlationId" = none →
       dget key2 "correlationId" = none →
       env.uuidCorr ≠ env2.uuidCorr →
       dget rk "correlationId" ≠ dget rk2 "correlationId") := by
  obtain ⟨hk, hv⟩ := process_ok_correlation key value exn? env rk rv h
  refine ⟨?_, ?_, ?_, ?_⟩
  · intro h0
    rw [hk]
    simp [pyGet, h0]
  · intro h0 hne hc
    rw [hk] at hc
    simp [pyGet, h0] at hc
    exact hne hc
  · intro x hx
    rw [hk, hv]
    simp [pyGet, hx]
  · intro key2 value2 exn2? env2 rk2 rv2 h2 h0 h02 hne heq
    obtain ⟨hk2, _⟩ := process_ok_correlation key2 value2 exn2? env2 rk2 rv2 h2
    rw [hk, hk2] at heq
    simp [pyGet, h0, h02] at heq
    exact hne heq

/-- C4 (witness): for the sample key carrying `correlationId = "abc"`,
both response halves carry exactly `"abc"`. -/
theorem process_correlation_witness :
    dget (successKey (JVal.str "abc") (JVal.str "p1")) "correlationId" =
        some (JVal.str "abc") ∧
    dget (successValue (JVal.str "abc") valEx envEx) "correlationId" =
        some (JVal.str "abc") := by
  have h := process_correlation keyAbc valEx none envEx
      (successKey (JVal.str "abc") (JVal.str "p1"))
      (successValue (JVal.str "abc") valEx envEx) (by rfl)
  exact h.2.2.1 (JVal.str "abc") (by rfl)

/-- C5: every internal transform failure that reaches the except handler
yields a response with status `ERROR`, `errorCode = "PROCESSING_ERROR"`,
a non-null `errorMessage`, null `processedData`, zero
`processingTimeMs`, and response-key `responseType = "ERROR_RESPONSE"`. -/
theorem process_error_shape (key value : PyDict) (msg : String)
    (env : Env) (rk rv : PyDict)
    (h : process (some key) (some value) (some msg) env = .ok (rk, rv)) :
    dget rv "status" = some (.str "ERROR") ∧
    resultField rv "errorCode" = some (.str "PROCESSING_ERROR") ∧
    resultField rv "errorMessage" = some (.str msg) ∧
    resultField rv "errorMessage" ≠ some JVal.null ∧
    resultField rv "processedData" = some JVal.null ∧
    resultField rv "processingTimeMs" = some (.int 0) ∧
    dget rk "responseType" = some (.str "ERROR_RESPONSE") := by
  rcases process_ok_shape key value (some msg) env rk rv h with
      ⟨hn, _, _⟩ | ⟨m, hm, hrk, hrv⟩
  · exact absurd hn (by simp)
  · injection hm with hm2
    subst hm2
    subst hrk
    subst hrv
    refine ⟨?_, ?_, ?_, ?_, ?_, ?_, ?_⟩ <;>
      simp [errorKey, errorValue, resultField, dget]

/-- C5 (witness): concrete error response for an injected failure. -/
theorem process_error_shape_witness :
    dget (errorValue (JVal.str "abc") valEx "boom" envEx) "status" =
        some (JVal.str "ERROR") ∧
    resultField (errorValue (JVal.str "abc") valEx "boom" envEx)
        "errorCode" = some (JVal.str "PROCESSING_ERROR") := by
  have h := process_error_shape keyAbc valEx "boom" envEx
      (errorKey (JVal.str "abc") (JVal.str "p1"))
      (errorValue (JVal.str "abc") valEx "boom" envEx) (by rfl)
  exact ⟨h.1, h.2.1⟩

/-- C6: every response value `process` returns — success or error —
has exactly one of `result.processedData` and `result.errorMessage`
non-null. -/
theorem process_result_exclusive (key? value? : Option PyDict)
    (exn? : Option String) (env : Env) (rk rv : PyDict)
    (h : process key? value? exn? env = .ok (rk, rv)) :
    (nonNullField (resultField rv "processedData") ∧
       ¬ nonNullField (resultField rv "errorMessage")) ∨
    (¬ nonNullField (resultField rv "processedData") ∧
       nonNullField (resultField rv "errorMessage")) := by
  cases key? with
  | none => exact absurd h (by simp [process])
  | some key =>
    cases value? with
    | none => exact absurd h (by simp [process])
    | some value =>
      rcases process_ok_shape key value exn? env rk rv h with
          ⟨_, _, hrv⟩ | ⟨m, _, _, hrv⟩
      · subst hrv
        left
        constructor
        · exact ⟨JVal.str (jsonDumps (JVal.obj (processedData
              (pyGet key "correlationId" (JVal.str env.uuidCorr)) value
              env))),
            by simp [successValue, resultField, dget], by simp⟩
        · rintro ⟨v, hv, hne⟩
          simp [successValue, resultField, dget] at hv
          exact hne hv.symm
      · subst hrv
        right
        constructor
        · rintro ⟨v, hv, hne⟩
          simp [errorValue, resultField, dget] at hv
          exact hne hv.symm
        · exact ⟨JVal.str m,
            by simp [errorValue, resultField, dget], by simp⟩

/-- C6 (witness): the exclusivity at a concrete successful invocation. -/
theorem process_result_exclusive_witness :
    (nonNullField (resultField (successValue (JVal.str "abc") valEx envEx)
         "processedData") ∧
       ¬ nonNullField (resultField (successValue (JVal.str "abc") valEx
         envEx) "errorMessage")) ∨
    (¬ nonNullField (resultField (successValue (JVal.str "abc") valEx
         envEx) "processedData") ∧
       nonNullField (resultField (successValue (JVal.str "abc") valEx
         envEx) "errorMessage")) :=
  process_result_exclusive (some keyAbc) (some valEx) none envEx
    (successKey (JVal.str "abc") (JVal.str "p1"))
    (successValue (JVal.str "abc") valEx envEx) (by rfl)

/-- C7: subject resolution returns a non-empty override verbatim and
otherwise falls back to topic plus role tag; in particular
`resolveSubject "orders" None` in the key role is `"orders-key"` and a
`"custom-subj"` override wins for any topic. -/
theorem resolveSubject_spec (topic : String) (override : Option String)
    (role : SubjectRole) :
    (∀ s, override = some s → s ≠ "" →
       resolveSubject topic override role = s) ∧
    ((override = none ∨ override = some "") →
       resolveSubject topic override SubjectRole.key = topic ++ "-key" ∧
       resolveSubject topic override SubjectRole.value =
         topic ++ "-value") ∧
    resolveSubject "orders" none SubjectRole.key = "orders-key" ∧
    (∀ t, resolveSubject t (some "custom-subj") role = "custom-subj") := by
  refine ⟨?_, ?_, rfl, ?_⟩
  · rintro s rfl hs
    simp [resolveSubject, pyOrStr, hs]
  · rintro (rfl | rfl) <;>
      simp [resolveSubject, pyOrStr, defaultSubject]
  · intro t
    simp [resolveSubject, pyOrStr]

/-- C7 (witness): both branches at concrete inputs. -/
theorem resolveSubject_spec_witness :
    resolveSubject "orders" (some "custom-subj") SubjectRole.key =
        "custom-subj" ∧
    resolveSubject "orders" (some "") SubjectRole.value =
        "orders" ++ "-value" :=
  ⟨(resolveSubject_spec "orders" (some "custom-subj") SubjectRole.key).1
      "custom-subj" rfl (by decide),
   ((resolveSubject_spec "orders" (some "") SubjectRole.value).2.1
      (Or.inr rfl)).2⟩

/-- C8 (counterexample): closing a producer whose delivery queue is
empty is a complete no-op — the producer object is falsy through
`__len__` — so the reference stays set and a subsequent
`produce_message` succeeds, queueing the message instead of failing. -/
theorem produce_after_close_succeeds_on_empty_queue :
    closeProducer ⟨some ⟨0⟩⟩ 0 = .ok ⟨some ⟨0⟩⟩ ∧
    produceMessage ⟨some ⟨0⟩⟩ keyAbc valEx = .ok ⟨some ⟨1⟩⟩ :=
  ⟨rfl, rfl⟩

/-- C8 (amended): when `close` actually cleared the producer reference —
its queue was non-empty, so the truthiness guard ran the body — every
subsequent `produce_message` fails deterministically with an error (the
AttributeError on the cleared reference, logged and re-raised by the
except clause); when the queue was empty at close time, `close` is a
no-op and the subsequent call queues the message normally. In neither
case is a message silently dropped. -/
theorem produce_after_close_fails (h : KafkaLib) (delivered : Nat)
    (s' : ProducerState) (keyData valueData : PyDict) :
    (h.pending ≠ 0 → closeProducer ⟨some h⟩ delivered = .ok s' →
      produceMessage s' keyData valueData =
        .error (.attributeError "NoneType object has no attribute produce"))
    ∧
    (h.pending = 0 → closeProducer ⟨some h⟩ delivered = .ok s' →
      produceMessage s' keyData valueData = .ok ⟨some ⟨h.pending + 1⟩⟩) := by
  constructor
  · intro hp hc
    simp [closeProducer, hp] at hc
    rw [← hc]
    rfl
  · intro hp hc
    simp [closeProducer, hp] at hc
    rw [← hc]
    rfl

/-- C8 (witness): both branches concretely: after closing with three
pending messages the produce fails; after the no-op close on an empty
queue the produce succeeds. -/
theorem produce_after_close_fails_witness :
    produceMessage ⟨none⟩ keyAbc valEx =
      .error (.attributeError "NoneType object has no attribute produce")
    ∧
    produceMessage ⟨some ⟨0⟩⟩ keyAbc valEx = .ok ⟨some ⟨1⟩⟩ :=
  ⟨(produce_after_close_fails ⟨3⟩ 3 ⟨none⟩ keyAbc valEx).1 (by decide) rfl,
   (produce_after_close_fails ⟨0⟩ 0 ⟨some ⟨0⟩⟩ keyAbc valEx).2 rfl rfl⟩

/-- C9 (counterexample): for a 0-byte key payload no decode is attempted
at all — even a decoder that succeeds on the empty buffer is never
consulted, so the half does not equal the attempted-decode outcome the
claim describes. -/
theorem deserialize_empty_not_attempted :
    ¬ ((deserializeMessage decEmptyOk decEmptyOk true true (some [])
          none).1 =
       (deserializeWithSchema decEmptyOk true []).toOption) := by
  simp [deserializeMessage, deserializeHalf, deserializeWithSchema,
        decEmptyOk, stripConfluent, Except.toOption]

/-- C9 (amended): a 0-byte payload is treated as absent: the decoder is
never invoked for that half (the result is `None` whatever the decoder
would do) and nothing propagates out of `deserialize_message`. -/
theorem deserialize_empty_yields_none
    (decK decV decK2 : Bytes → Except String PyDict) (kL vL : Bool)
    (rawKey? rawValue? : Option Bytes) :
    (deserializeMessage decK decV kL vL (some []) rawValue?).1 = none ∧
    (deserializeMessage decK decV kL vL rawKey? (some [])).2 = none ∧
    ((deserializeMessage decK decV kL vL (some []) rawValue?).1 =
      (deserializeMessage decK2 decV kL vL (some []) rawValue?).1) :=
  ⟨rfl, rfl, rfl⟩

/-- C10 (counterexample): the first `close` on an open producer whose
queue is empty neither flushes nor clears the producer reference — the
len-based truthiness guard skips the whole body and the state is
unchanged with the reference still set. -/
theorem close_empty_queue_does_not_clear :
    closeProducer ⟨some ⟨0⟩⟩ 5 = .ok ⟨some ⟨0⟩⟩ ∧
    (ProducerState.mk (some ⟨0⟩)).handle ≠ none := by
  refine ⟨rfl, ?_⟩
  simp

/-- C10 (amended): `close` never raises and is idempotent: a first call
on a producer with pending messages flushes and clears the producer
reference; a call on an already-cleared producer, or on an open producer
whose queue is empty, is a no-op that leaves the state unchanged; and in
every case repeating `close` (or the context-manager exit) returns the
post-close state unchanged without error. -/
theorem close_idempotent_no_raise (s : ProducerState) (delivered : Nat) :
    ∃ s', closeProducer s delivered = .ok s' ∧
      (∀ h, s.handle = some h → h.pending ≠ 0 → s'.handle = none) ∧
      (s.handle = none → s' = s) ∧
      (∀ h, s.handle = some h → h.pending = 0 → s' = s) ∧
      (∀ d2, closeProducer s' d2 = .ok s') ∧
      (∀ d2, exitProducer s' d2 = .ok s') := by
  cases s with
  | mk handle? =>
    cases handle? with
    | none =>
      refine ⟨⟨none⟩, rfl, ?_, fun _ => rfl, ?_, fun _ => rfl,
        fun _ => rfl⟩
      · intro h hh hp
        exact Option.noConfusion hh
      · intro h hh hp
        exact Option.noConfusion hh
    | some hd =>
      by_cases hp : hd.pending = 0
      · refine ⟨⟨some hd⟩, ?_, ?_, ?_, fun _ _ _ => rfl, ?_, ?_⟩
        · simp [closeProducer, hp]
        · intro h hh hp2
          injection hh with hh2
          subst hh2
          exact absurd hp hp2
        · intro hh
          exact Option.noConfusion hh
        · intro d2
          simp [closeProducer, hp]
        · intro d2
          simp [exitProducer, closeProducer, hp]
      · refine ⟨⟨none⟩, ?_, fun _ _ _ => rfl, ?_, ?_, fun _ => rfl,
          fun _ => rfl⟩
        · simp [closeProducer, hp]
        · intro hh
          exact Option.noConfusion hh
        · intro h hh hp2
          injection hh with hh2
          subst hh2
          exact absurd hp2 hp

/-- C10 (witness): closing a producer with two pending messages clears
the reference, and a later close on the cleared state is a no-op. -/
theorem close_idempotent_no_raise_witness :
    closeProducer ⟨some ⟨2⟩⟩ 0 = .ok ⟨none⟩ ∧
    closeProducer ⟨none⟩ 7 = .ok ⟨none⟩ := by
  obtain ⟨s', h1, h2, _, _, h5, _⟩ := close_idempotent_no_raise ⟨some ⟨2⟩⟩ 0
  have h0 : s'.handle = none := h2 ⟨2⟩ rfl (by decide)
  cases s' with
  | mk hh =>
    subst h0
    exact ⟨h1, h5 7⟩
